import Mathlib

/-!
# Verification of the `healthcheck` package

A shallow embedding of the health-check engine from
`src/pkg/healthcheck` (`healthcheck.go`, `reporter.go`, the error
taxonomy file) together with proofs about its behaviour.

Modelling conventions:
* Go `error` values returned by probes become `Option GoError`; the
  distinguished error-like types `SkipError`, `VerboseSuccess` and
  `CategoryError` are constructors of `GoError`.  None of these types
  defines an `Unwrap` method in the source, so `errors.As` only matches
  the top-level constructor.
* Wall-clock time is a `Nat` tick counter.  `time.Now()` at the start of
  an attempt is the `now` parameter; `time.Sleep(DefaultRetryWindow)`
  advances it by `DefaultRetryWindow`.  Go's zero `time.Time` (the
  "never retry" deadline) is `0`: `time.Now().Before(zero)` is false,
  and `now < 0` is false.
* The shared mutable `map[string]any` is an association list with
  `String` values; probes receive the state and return the updated one.
* A probe `func(ctx, state) error` becomes a pure function of the
  current time and the state, returning the error and the new state;
  the time argument stands for everything in the outside world the
  probe may observe.  Per-attempt `context` timeouts are not modelled.
* The `CheckObserver` callback is modelled by returning the list of
  emitted `CheckResult`s in emission order.
-/

set_option linter.unusedVariables false

namespace Healthcheck

/-- Go `error` values that appear in this package (from the error
taxonomy file: `SkipError`, `VerboseSuccess`, `CategoryError`, plus
plain errors such as those built with `fmt.Errorf`/`errors.New`). -/
inductive GoError where
  | simple (msg : String)
  | skipError (reason : String)
  | verboseSuccess (message : String)
  | categoryError (category : String) (cause : GoError)
deriving Repr, DecidableEq

/-- The `Error()` method of each error type: `SkipError` returns its reason,
`VerboseSuccess` returns `""`, `CategoryError` delegates to its cause. -/
def GoError.errorString : GoError → String
  | .simple msg => msg
  | .skipError reason => reason
  | .verboseSuccess _ => ""
  | .categoryError _ cause => cause.errorString

/-- Model of `errors.As(err, &se)` for `se : SkipError`: none of the error types
defines `Unwrap`, so only a top-level `SkipError` matches. -/
def asSkipError : Option GoError → Option String
  | some (.skipError reason) => some reason
  | _ => none

/-- Model of `errors.As(err, &vs)` for `vs : VerboseSuccess`. -/
def asVerboseSuccess : Option GoError → Option String
  | some (.verboseSuccess message) => some message
  | _ => none

/-- The `CategoryID` type (an opaque string). -/
abbrev CategoryID := String

/-- The `HealthCheckState` struct: the shared mutable data bag (`map[string]any`),
modelled as an association list. -/
structure HealthCheckState where
  data : List (String × String)
deriving Repr, DecidableEq

/-- A probe: `func(context.Context, HealthCheckState) error`, as a pure
function of the current time and the shared state. -/
abbrev CheckFn := Nat → HealthCheckState → Option GoError × HealthCheckState

/-- The `Checker` struct from healthcheck.go. -/
structure Checker where
  description : String := ""
  hintAnchor : String := ""
  fatal : Bool := false
  warning : Bool := false
  retryDeadline : Nat := 0
  surfaceErrorOnRetry : Bool := false
  check : Option CheckFn := none

/-- The `CheckResult` struct from healthcheck.go. -/
structure CheckResult where
  category : CategoryID
  description : String
  hintURL : String
  retry : Bool := false
  warning : Bool := false
  err : Option GoError := none
deriving Repr, DecidableEq

/-- The `Category` struct from healthcheck.go (the engine variant: `Name`, `ID`,
`Enabled`, `Checkers`, `HintBaseURL`). -/
structure Category where
  name : String := ""
  id : CategoryID
  enabled : Bool
  checkers : List Checker
  hintBaseURL : String

/-- The `HealthCheckConfig` struct (empty). -/
structure HealthCheckConfig where

/-- The `HealthChecker` struct from healthcheck.go. -/
structure HealthChecker where
  categories : List Category
  config : HealthCheckConfig := {}
  state : HealthCheckState

/-- The tunable `DefaultRetryWindow = 5 * time.Second`, in seconds. -/
def DefaultRetryWindow : Nat := 5

/-- Construction of the `CheckResult` inside one attempt of `runCheck`
(healthcheck.go lines 161-172): base record from checker metadata, the
hint URL is plain concatenation, a `VerboseSuccess` outcome appends
`"\n" + message` to the description, any other non-nil error is wrapped
in `CategoryError`. -/
def mkCheckResult (category : Category) (c : Checker) (err : Option GoError) : CheckResult :=
  let checkResult : CheckResult :=
    { category := category.id
      description := c.description
      warning := c.warning
      hintURL := category.hintBaseURL ++ c.hintAnchor }
  match asVerboseSuccess err with
  | some message => { checkResult with description := checkResult.description ++ "\n" ++ message }
  | none =>
    match err with
    | some e => { checkResult with err := some (.categoryError category.id e) }
    | none => checkResult

/-- Result of one `runCheck` call: the boolean it returns, the stream of
`CheckResult`s it passed to the observer, and the final clock/state. -/
structure RunCheckOut where
  passed : Bool
  emitted : List CheckResult
  now : Nat
  state : HealthCheckState
deriving Repr, DecidableEq

/-- Function `runCheck` from healthcheck.go lines 150-189: run the probe, return
early on `SkipError`, build the `CheckResult`, and either emit a
`retry=true` result (with the error hidden behind the "waiting" sentinel
unless `surfaceErrorOnRetry`) and loop after sleeping, or emit the
terminal result and return `err == nil`. -/
def runCheck (category : Category) (c : Checker) (f : CheckFn)
    (now : Nat) (st : HealthCheckState) : RunCheckOut :=
  let err := (f now st).1
  let st' := (f now st).2
  if (asSkipError err).isSome then
    ⟨true, [], now, st'⟩
  else
    let checkResult := mkCheckResult category c err
    if h : checkResult.err.isSome = true ∧ now < c.retryDeadline then
      let emitted : CheckResult :=
        { checkResult with
          retry := true
          err := if c.surfaceErrorOnRetry then checkResult.err
                 else some (.simple "waiting for check to complete") }
      let o := runCheck category c f (now + DefaultRetryWindow) st'
      ⟨o.passed, emitted :: o.emitted, o.now, o.state⟩
    else
      ⟨checkResult.err == none, [checkResult], now, st'⟩
termination_by c.retryDeadline - now
decreasing_by
  have hlt := h.2
  simp only [DefaultRetryWindow]
  omega

/-- Result of the checker loop inside `RunChecks`, with an `aborted`
flag modelling the early `return` taken on a fatal failure. -/
structure CheckersOut where
  aborted : Bool
  success : Bool
  warning : Bool
  emitted : List CheckResult
  now : Nat
  state : HealthCheckState
deriving Repr, DecidableEq

/-- The inner loop of `RunChecks` (healthcheck.go lines 131-144) over
the checkers of one category, threading `success`/`warning`. -/
def runCheckers (cat : Category) :
    List Checker → Nat → HealthCheckState → Bool → Bool → CheckersOut
  | [], now, st, success, warning => ⟨false, success, warning, [], now, st⟩
  | c :: rest, now, st, success, warning =>
    match c.check with
    | none => runCheckers cat rest now st success warning
    | some f =>
      let o := runCheck cat c f now st
      if o.passed then
        let r := runCheckers cat rest o.now o.state success warning
        { r with emitted := o.emitted ++ r.emitted }
      else
        let success' := if !c.warning then false else success
        let warning' := if c.warning then true else warning
        if c.fatal then
          ⟨true, success', warning', o.emitted, o.now, o.state⟩
        else
          let r := runCheckers cat rest o.now o.state success' warning'
          { r with emitted := o.emitted ++ r.emitted }

/-- Result of a whole `RunChecks` call. -/
structure RunOut where
  success : Bool
  warning : Bool
  emitted : List CheckResult
  now : Nat
  state : HealthCheckState
deriving Repr, DecidableEq

/-- The outer loop of `RunChecks` (healthcheck.go lines 129-146) over
the categories; a disabled category is skipped, and an aborted checker
loop makes the whole run return immediately. -/
def runCategories :
    List Category → Nat → HealthCheckState → Bool → Bool → RunOut
  | [], now, st, success, warning => ⟨success, warning, [], now, st⟩
  | c :: rest, now, st, success, warning =>
    if c.enabled then
      let o := runCheckers c c.checkers now st success warning
      if o.aborted then
        ⟨o.success, o.warning, o.emitted, o.now, o.state⟩
      else
        let r := runCategories rest o.now o.state o.success o.warning
        { r with emitted := o.emitted ++ r.emitted }
    else
      runCategories rest now st success warning

/-- Function `RunChecks` from healthcheck.go lines 126-148: `success` starts
true, `warning` starts false. -/
def HealthChecker.RunChecks (hc : HealthChecker) (now : Nat) : RunOut :=
  runCategories hc.categories now hc.state true false

/-- The engine after a run: `RunChecks` never resets `hc.state`, so the
engine keeps whatever the probes left in the shared map. -/
def HealthChecker.afterRun (hc : HealthChecker) (now : Nat) : HealthChecker :=
  { hc with state := (hc.RunChecks now).state }

/-- Function `NewHealthChecker` from healthcheck.go lines 100-108.  The Go
function dereferences `*config` unconditionally, so a nil `config`
makes the call panic (outer `none`); a defined call always returns a
non-nil pointer (`some (some hc)`) with a freshly created empty shared
state map. -/
def NewHealthChecker (categories : List Category) (config : Option HealthCheckConfig) :
    Option (Option HealthChecker) :=
  match config with
  | none => none
  | some cfg => some (some { categories := categories, config := cfg, state := { data := [] } })

/-! ## Case equations for `runCheck` -/

/-- A terminal (non-retry) result recording a failure. -/
def isTerminalFailure (r : CheckResult) : Bool := !r.retry && r.err.isSome

def c3f : CheckFn := fun _ s => (some (.simple "ERROR"), s)

def c3fatal : Checker :=
  { description := "Checker 123", hintAnchor := "check123", fatal := true, check := some c3f }

def c3ok : Checker :=
  { description := "Checker 234", hintAnchor := "check234", check := some (fun _ s => (none, s)) }

def c3cat : Category :=
  { id := "test", enabled := true, checkers := [c3fatal, c3ok], hintBaseURL := "http://test.com/" }

def c4f : CheckFn := fun _ s => (some (.skipError "Skip Test"), s)

def c4skip : Checker :=
  { description := "Checker 123", hintAnchor := "check123", fatal := true, check := some c4f }

def c4ok : Checker :=
  { description := "Checker 234", hintAnchor := "check234", check := some (fun _ s => (none, s)) }

def c4cat : Category :=
  { id := "test", enabled := true, checkers := [c4skip, c4ok], hintBaseURL := "http://test.com/" }

def c9f : CheckFn := fun _ s => (some (.verboseSuccess "Hello"), s)

def c9ch : Checker :=
  { description := "Checker 123", hintAnchor := "check123", check := some c9f }

def c9cat : Category :=
  { id := "test", enabled := true, checkers := [c9ch], hintBaseURL := "http://test.com/" }

def c5f : CheckFn := fun t s => (if t < 5 then some (.simple "ERROR") else none, s)

def c5ch : Checker :=
  { description := "Checker 123", hintAnchor := "check123", retryDeadline := 7, check := some c5f }

def c5cat : Category :=
  { id := "test", enabled := true, checkers := [c5ch], hintBaseURL := "http://test.com/" }

/-! ## The reporter (reporter.go)

The JSON serialization step (`json.Marshal`) is outside the model; the
embedding stops at the `CheckOutput` value `ToJSON` marshals. -/

/-- The `CheckResultStr` type with its three constants `"success"`, `"warning"`,
`"error"`. -/
inductive CheckResultStr where
  | success
  | warning
  | error
deriving Repr, DecidableEq

/-- The `Check` struct, the user-facing record of one terminal result. -/
structure Check where
  description : String
  hint : String := ""
  error : String := ""
  result : CheckResultStr
deriving Repr, DecidableEq

/-- The `CheckCategory` struct. -/
structure CheckCategory where
  name : CategoryID
  checks : List Check
deriving Repr, DecidableEq

/-- The `CheckOutput` struct. -/
structure CheckOutput where
  success : Bool
  warning : Bool
  categories : List CheckCategory
deriving Repr, DecidableEq

/-- The `SimpleReporter` struct. -/
structure SimpleReporter where
  results : List CheckResult
  success : Bool := false
  warning : Bool := false
deriving Repr, DecidableEq

/-- Function `NewSimpleReporter`. -/
def NewSimpleReporter : SimpleReporter := { results := [] }

/-- Method `Observer`: append the received result. -/
def SimpleReporter.Observer (cr : SimpleReporter) (r : CheckResult) : SimpleReporter :=
  { cr with results := cr.results ++ [r] }

/-- The loop of `Replay` (reporter.go lines 190-204): `success` starts
true and `warning` false; every stored result with a non-nil error —
`Retry` is not consulted — clears `success` (non-warning) or sets
`warning` (warning); each result is forwarded to the observer, which
the model renders as the results list itself. -/
def replayLoop : List CheckResult → Bool → Bool → Bool × Bool
  | [], success, warning => (success, warning)
  | r :: rest, success, warning =>
    if r.err.isSome then
      if !r.warning then replayLoop rest false warning
      else replayLoop rest success true
    else replayLoop rest success warning

/-- Method `Replay` from reporter.go: the recomputed `(success, warning)`
pair; the observer receives `cr.results` in order. -/
def SimpleReporter.Replay (cr : SimpleReporter) : Bool × Bool :=
  replayLoop cr.results true false

/-- The `status` computation inside `ToJSON`'s `collectJSONOutput`
(reporter.go lines 112-118): start from success, switch to warning if
the record is warning-flagged, then to error if its error is non-nil. -/
def checkStatus (result : CheckResult) : CheckResultStr :=
  let status := CheckResultStr.success
  let status := if result.warning then CheckResultStr.warning else status
  let status := if result.err.isSome then CheckResultStr.error else status
  status

/-- The `Check` record `collectJSONOutput` builds for a terminal
result (reporter.go lines 120-131). -/
def currentCheckOf (result : CheckResult) : Check :=
  let currentCheck : Check := { description := result.description, result := checkStatus result }
  match result.err with
  | some e =>
    { currentCheck with
      error := e.errorString
      hint := if result.hintURL ≠ "" then result.hintURL else "" }
  | none => currentCheck

/-- Append a check to the last category of the list (the
`currentCategory.Checks = append(...)` write through
`categories[len(categories)-1]`). -/
def appendCheck : List CheckCategory → Check → List CheckCategory
  | [], _ => []
  | [c], chk => [{ c with checks := c.checks ++ [chk] }]
  | c :: rest, chk => c :: appendCheck rest chk

/-- The closure `collectJSONOutput` (reporter.go lines 101-134): open a new
category block when the list is empty or the last block's name differs
from the record's category, then — only for non-retry records — append
the built `Check` to the current (last) block. -/
def collectJSONOutput (categories : List CheckCategory) (result : CheckResult) :
    List CheckCategory :=
  let categories :=
    match categories.getLast? with
    | none => categories ++ [{ name := result.category, checks := [] }]
    | some c =>
      if c.name ≠ result.category then
        categories ++ [{ name := result.category, checks := [] }]
      else categories
  if !result.retry then appendCheck categories (currentCheckOf result)
  else categories

/-- Method `ToJSON` up to (but not including) `json.Marshal`: replay the
stored results through `collectJSONOutput` and pair the grouped checks
with the `(success, warning)` that `Replay` recomputes. -/
def SimpleReporter.ToJSON (cr : SimpleReporter) : CheckOutput :=
  { success := (cr.Replay).1
    warning := (cr.Replay).2
    categories := cr.results.foldl collectJSONOutput [] }

/-- Modelled from the spec: the aggregation rule of §4.2 applied to the
terminal (`retry=false`) results only — `success` is false iff some
terminal non-warning result carries a non-nil error, `warning` is true
iff some terminal warning result carries a non-nil error.  Stated from
the spec's words to compare with `SimpleReporter.Replay`. -/
def specAggregate (results : List CheckResult) : Bool × Bool :=
  ((results.filter fun r => !r.retry).all fun r => !(r.err.isSome && !r.warning),
   (results.filter fun r => !r.retry).any fun r => r.err.isSome && r.warning)

def c6f : CheckFn := fun t s => (if t < 5 then some (.simple "ERROR") else none, s)

def c6ch : Checker :=
  { description := "Checker 123", hintAnchor := "check123", retryDeadline := 7, check := some c6f }

def c6cat : Category :=
  { id := "test", enabled := true, checkers := [c6ch], hintBaseURL := "http://test.com/" }

def c6hc : HealthChecker := { categories := [c6cat], state := ⟨[]⟩ }

/-- All checks of a grouped output, across category blocks, in order. -/
def jsonChecks (cats : List CheckCategory) : List Check :=
  (cats.map (fun c => c.checks)).flatten

def c7r1 : CheckResult :=
  { category := "c", description := "d1", hintURL := "", retry := false,
    warning := true, err := none }

def c7r2 : CheckResult :=
  { category := "c", description := "d2", hintURL := "h", retry := false,
    warning := true, err := some (.simple "E") }

def c8wf : CheckFn := fun _ s => (none, ⟨s.data ++ [("one", "two")]⟩)

def c8rf : CheckFn := fun _ s =>
  (if s.data.lookup "one" = some "two" then none
   else some (.simple "Not found or not a string"), s)

def c8w : Checker := { description := "Checker 123", hintAnchor := "check123", check := some c8wf }

def c8r : Checker := { description := "Checker 234", hintAnchor := "check234", check := some c8rf }

def c8vcat : Category :=
  { id := "test", enabled := true, checkers := [c8w, c8r], hintBaseURL := "http://test.com/" }

def c8xf : CheckFn := fun _ s =>
  if s.data.lookup "one" = some "two" then (none, s)
  else (some (.simple "Not found or not a string"), ⟨s.data ++ [("one", "two")]⟩)

def c8xch : Checker := { description := "Checker 123", hintAnchor := "check123", check := some c8xf }

def c8xcat : Category :=
  { id := "test", enabled := true, checkers := [c8xch], hintBaseURL := "http://test.com/" }

def c8xhc : HealthChecker := { categories := [c8xcat], state := ⟨[]⟩ }

/-! ## Basic facts about one attempt -/

theorem mkCheckResult_retry (cat : Category) (c : Checker) (e : Option GoError) :
    (mkCheckResult cat c e).retry = false := by
  unfold mkCheckResult
  split
  · rfl
  · split <;> rfl

theorem mkCheckResult_warning (cat : Category) (c : Checker) (e : Option GoError) :
    (mkCheckResult cat c e).warning = c.warning := by
  unfold mkCheckResult
  split
  · rfl
  · split <;> rfl

theorem mkCheckResult_category (cat : Category) (c : Checker) (e : Option GoError) :
    (mkCheckResult cat c e).category = cat.id := by
  unfold mkCheckResult
  split
  · rfl
  · split <;> rfl

theorem mkCheckResult_err_shape (cat : Category) (c : Checker) (e : Option GoError) :
    (mkCheckResult cat c e).err = none ∨
      ∃ e', (mkCheckResult cat c e).err = some (.categoryError cat.id e') := by
  unfold mkCheckResult
  split
  · exact Or.inl rfl
  · split
    · exact Or.inr ⟨_, rfl⟩
    · exact Or.inl rfl

theorem runCheck_skip_eq (cat : Category) (c : Checker) (f : CheckFn)
    (now : Nat) (st : HealthCheckState)
    (hsk : (asSkipError (f now st).1).isSome = true) :
    runCheck cat c f now st = ⟨true, [], now, (f now st).2⟩ := by
  unfold runCheck
  simp [hsk]

theorem runCheck_retry_eq (cat : Category) (c : Checker) (f : CheckFn)
    (now : Nat) (st : HealthCheckState)
    (hsk : (asSkipError (f now st).1).isSome = false)
    (herr : (mkCheckResult cat c (f now st).1).err.isSome = true)
    (hlt : now < c.retryDeadline) :
    runCheck cat c f now st =
      ⟨(runCheck cat c f (now + DefaultRetryWindow) (f now st).2).passed,
       { mkCheckResult cat c (f now st).1 with
         retry := true
         err := if c.surfaceErrorOnRetry then (mkCheckResult cat c (f now st).1).err
                else some (.simple "waiting for check to complete") } ::
         (runCheck cat c f (now + DefaultRetryWindow) (f now st).2).emitted,
       (runCheck cat c f (now + DefaultRetryWindow) (f now st).2).now,
       (runCheck cat c f (now + DefaultRetryWindow) (f now st).2).state⟩ := by
  conv_lhs => unfold runCheck
  simp [hsk, herr, hlt]

theorem runCheck_terminal_eq (cat : Category) (c : Checker) (f : CheckFn)
    (now : Nat) (st : HealthCheckState)
    (hsk : (asSkipError (f now st).1).isSome = false)
    (hterm : ¬((mkCheckResult cat c (f now st).1).err.isSome = true ∧ now < c.retryDeadline)) :
    runCheck cat c f now st =
      ⟨(mkCheckResult cat c (f now st).1).err == none,
       [mkCheckResult cat c (f now st).1], now, (f now st).2⟩ := by
  conv_lhs => unfold runCheck
  simp [hsk, hterm]

/-- Master description of the stream one `runCheck` call emits: a block
of `retry=true` results (each with a non-nil error, the checker's
warning flag, and the "waiting" sentinel unless `surfaceErrorOnRetry`),
followed either by nothing (only possible when some attempt of the
probe signalled skip) or by exactly one `retry=false` terminal result
whose error decides the returned verdict.  A retry block is only
possible when the clock is before the retry deadline. -/
theorem runCheck_stream (cat : Category) (c : Checker) (f : CheckFn)
    (now : Nat) (st : HealthCheckState) :
    ∃ pre rest,
      (runCheck cat c f now st).emitted = pre ++ rest ∧
      (∀ r ∈ pre,
        r.retry = true ∧ r.err.isSome = true ∧ r.warning = c.warning ∧
        (c.surfaceErrorOnRetry = false → r.err = some (.simple "waiting for check to complete")) ∧
        (c.surfaceErrorOnRetry = true → ∃ e, r.err = some (.categoryError cat.id e))) ∧
      (pre ≠ [] → now < c.retryDeadline) ∧
      ((rest = [] ∧ (runCheck cat c f now st).passed = true ∧
         ∃ t st₂, (asSkipError (f t st₂).1).isSome = true) ∨
       (∃ last, rest = [last] ∧ last.retry = false ∧ last.warning = c.warning ∧
         (runCheck cat c f now st).passed = (last.err == none))) := by
  refine runCheck.induct cat c f (fun now st => ∃ pre rest,
      (runCheck cat c f now st).emitted = pre ++ rest ∧
      (∀ r ∈ pre,
        r.retry = true ∧ r.err.isSome = true ∧ r.warning = c.warning ∧
        (c.surfaceErrorOnRetry = false → r.err = some (.simple "waiting for check to complete")) ∧
        (c.surfaceErrorOnRetry = true → ∃ e, r.err = some (.categoryError cat.id e))) ∧
      (pre ≠ [] → now < c.retryDeadline) ∧
      ((rest = [] ∧ (runCheck cat c f now st).passed = true ∧
         ∃ t st₂, (asSkipError (f t st₂).1).isSome = true) ∨
       (∃ last, rest = [last] ∧ last.retry = false ∧ last.warning = c.warning ∧
         (runCheck cat c f now st).passed = (last.err == none)))) ?_ ?_ ?_ now st
  · intro now st err hsk
    rw [runCheck_skip_eq cat c f now st hsk]
    exact ⟨[], [], rfl, by simp, by simp, Or.inl ⟨rfl, rfl, now, st, hsk⟩⟩
  · intro now st err st' hsk checkResult hcond ih
    obtain ⟨herr, hlt⟩ := hcond
    rw [runCheck_retry_eq cat c f now st (by simpa using hsk) herr hlt]
    obtain ⟨pre, rest, he, hpre, _, hrest⟩ := ih
    refine ⟨{ mkCheckResult cat c (f now st).1 with
              retry := true
              err := if c.surfaceErrorOnRetry then (mkCheckResult cat c (f now st).1).err
                     else some (.simple "waiting for check to complete") } :: pre,
            rest, by simp [he], ?_, fun _ => hlt, ?_⟩
    · intro r hr
      rcases List.mem_cons.mp hr with hr | hr
      · subst hr
        refine ⟨rfl, ?_, by simp [mkCheckResult_warning], ?_, ?_⟩
        · cases hs : c.surfaceErrorOnRetry <;> simp [hs, herr]
        · intro hs; simp [hs]
        · intro hs
          rcases mkCheckResult_err_shape cat c (f now st).1 with hnone | ⟨e', he'⟩
          · rw [hnone] at herr; simp at herr
          · exact ⟨e', by simp [hs, he']⟩
      · exact hpre r hr
    · rcases hrest with ⟨h1, h2, h3⟩ | ⟨last, h1, h2, h3, h4⟩
      · exact Or.inl ⟨h1, by simpa using h2, h3⟩
      · exact Or.inr ⟨last, h1, h2, h3, by simpa using h4⟩
  · intro now st err hsk checkResult hterm
    rw [runCheck_terminal_eq cat c f now st (by simpa using hsk) hterm]
    refine ⟨[], [mkCheckResult cat c (f now st).1], by simp, by simp, by simp, Or.inr ?_⟩
    exact ⟨mkCheckResult cat c (f now st).1, rfl, mkCheckResult_retry cat c _,
           mkCheckResult_warning cat c _, by simp⟩

/-! ## Aggregation of `success` and `warning` -/

theorem runCheck_agg (cat : Category) (c : Checker) (f : CheckFn)
    (now : Nat) (st : HealthCheckState) :
    ((runCheck cat c f now st).emitted.any fun r => isTerminalFailure r && !r.warning)
      = (!(runCheck cat c f now st).passed && !c.warning) ∧
    ((runCheck cat c f now st).emitted.any fun r => isTerminalFailure r && r.warning)
      = (!(runCheck cat c f now st).passed && c.warning) := by
  obtain ⟨pre, rest, he, hpre, _, hrest⟩ := runCheck_stream cat c f now st
  have hpreS : (pre.any fun r => isTerminalFailure r && !r.warning) = false := by
    rw [List.any_eq_false]
    intro r hr
    simp [isTerminalFailure, (hpre r hr).1]
  have hpreW : (pre.any fun r => isTerminalFailure r && r.warning) = false := by
    rw [List.any_eq_false]
    intro r hr
    simp [isTerminalFailure, (hpre r hr).1]
  rcases hrest with ⟨h1, h2, _⟩ | ⟨last, h1, h2, h3, h4⟩
  · subst h1
    rw [he, h2]
    simp [List.any_append, hpreS, hpreW]
  · subst h1
    have happ : ∀ (p : CheckResult → Bool), pre.any p = false →
        (pre ++ [last]).any p = p last := by
      intro p hp
      simp [List.any_append, hp]
    rw [he, h4]
    constructor
    · rw [happ _ hpreS]
      simp only [isTerminalFailure, h2, h3, Bool.not_false, Bool.true_and]
      cases herr : last.err <;> simp [herr]
    · rw [happ _ hpreW]
      simp only [isTerminalFailure, h2, h3, Bool.not_false, Bool.true_and]
      cases herr : last.err <;> simp [herr]

theorem runCheckers_agg (cat : Category) (chs : List Checker) :
    ∀ (now : Nat) (st : HealthCheckState) (s w : Bool),
    (runCheckers cat chs now st s w).success
      = (s && !((runCheckers cat chs now st s w).emitted.any
          fun r => isTerminalFailure r && !r.warning)) ∧
    (runCheckers cat chs now st s w).warning
      = (w || (runCheckers cat chs now st s w).emitted.any
          fun r => isTerminalFailure r && r.warning) := by
  induction chs with
  | nil => intro now st s w; simp [runCheckers]
  | cons c rest ih =>
    intro now st s w
    show (runCheckers cat (c :: rest) now st s w).success = _ ∧ _
    rw [runCheckers]
    cases hchk : c.check with
    | none => exact ih now st s w
    | some f =>
      obtain ⟨haggS, haggW⟩ := runCheck_agg cat c f now st
      cases hp : (runCheck cat c f now st).passed with
      | true =>
        rw [hp] at haggS haggW
        simp only [hp, if_true]
        obtain ⟨ihS, ihW⟩ := ih (runCheck cat c f now st).now (runCheck cat c f now st).state s w
        constructor
        · simp [List.any_append, haggS, ihS]
        · simp [List.any_append, haggW, ihW]
      | false =>
        rw [hp] at haggS haggW
        simp only [hp, Bool.false_eq_true, if_false]
        cases hw : c.warning with
        | false =>
          rw [hw] at haggS haggW
          simp only [hw, Bool.not_false, if_true, Bool.false_eq_true, if_false]
          cases hfat : c.fatal with
          | true =>
            simp only [hfat, if_true]
            simp [haggS, haggW]
          | false =>
            simp only [hfat, Bool.false_eq_true, if_false]
            obtain ⟨ihS, ihW⟩ :=
              ih (runCheck cat c f now st).now (runCheck cat c f now st).state false w
            constructor
            · simp [List.any_append, haggS, ihS]
            · simp [List.any_append, haggW, ihW]
        | true =>
          rw [hw] at haggS haggW
          simp only [hw, Bool.not_true, Bool.false_eq_true, if_false, if_true]
          cases hfat : c.fatal with
          | true =>
            simp only [hfat, if_true]
            simp [haggS, haggW]
          | false =>
            simp only [hfat, Bool.false_eq_true, if_false]
            obtain ⟨ihS, ihW⟩ :=
              ih (runCheck cat c f now st).now (runCheck cat c f now st).state s true
            constructor
            · simp [List.any_append, haggS, ihS]
            · simp [List.any_append, haggW, ihW]

theorem runCategories_agg (cats : List Category) :
    ∀ (now : Nat) (st : HealthCheckState) (s w : Bool),
    (runCategories cats now st s w).success
      = (s && !((runCategories cats now st s w).emitted.any
          fun r => isTerminalFailure r && !r.warning)) ∧
    (runCategories cats now st s w).warning
      = (w || (runCategories cats now st s w).emitted.any
          fun r => isTerminalFailure r && r.warning) := by
  induction cats with
  | nil => intro now st s w; simp [runCategories]
  | cons c rest ih =>
    intro now st s w
    show (runCategories (c :: rest) now st s w).success = _ ∧ _
    rw [runCategories]
    cases hen : c.enabled with
    | false => exact ih now st s w
    | true =>
      simp only [if_true]
      obtain ⟨hS, hW⟩ := runCheckers_agg c c.checkers now st s w
      cases hab : (runCheckers c c.checkers now st s w).aborted with
      | true =>
        simp only [hab, if_true]
        exact ⟨hS, hW⟩
      | false =>
        simp only [hab, Bool.false_eq_true, if_false]
        obtain ⟨ihS, ihW⟩ := ih (runCheckers c c.checkers now st s w).now
          (runCheckers c c.checkers now st s w).state
          (runCheckers c c.checkers now st s w).success
          (runCheckers c c.checkers now st s w).warning
        constructor
        · rw [ihS, hS]
          simp [List.any_append, Bool.and_assoc]
        · rw [ihW, hW]
          simp [List.any_append, Bool.or_assoc]

/-! ## Claim C1 -/

/-- C1: for every configuration of categories and checkers, `RunChecks`
returns `success = false` if and only if at least one non-warning
checker produced a terminal failure (an emitted `retry=false` result
with a non-nil error and `warning=false`); `success` starts true and is
only ever set to false, which the equivalence reflects: with no such
failure the run keeps the initial `true`. -/
theorem runChecks_success_iff (hc : HealthChecker) (now : Nat) :
    (hc.RunChecks now).success = false ↔
      ∃ r ∈ (hc.RunChecks now).emitted,
        r.retry = false ∧ r.err.isSome = true ∧ r.warning = false := by
  simp only [HealthChecker.RunChecks]
  obtain ⟨hS, _⟩ := runCategories_agg hc.categories now hc.state true false
  rw [hS]
  simp [List.any_eq_true, isTerminalFailure, and_assoc]

/-! ## Claim C2 -/

/-- C2: for every configuration, `RunChecks` returns `warning = true`
if and only if at least one warning-flagged checker produced a terminal
failure (an emitted `retry=false` result with a non-nil error and
`warning=true`).  The equivalence holds whatever `success` is, and a
warning checker's failure never contributes to the `success` side
(compare `runChecks_success_iff`, which requires `warning=false`). -/
theorem runChecks_warning_iff (hc : HealthChecker) (now : Nat) :
    (hc.RunChecks now).warning = true ↔
      ∃ r ∈ (hc.RunChecks now).emitted,
        r.retry = false ∧ r.err.isSome = true ∧ r.warning = true := by
  simp only [HealthChecker.RunChecks]
  obtain ⟨_, hW⟩ := runCategories_agg hc.categories now hc.state true false
  rw [hW]
  simp [List.any_eq_true, isTerminalFailure, and_assoc]

/-! ## Claim C3 -/

/-- C3: when a fatal checker produces a terminal failure, the engine
returns immediately with the current `(success, warning)` (updated for
this failure) and the only results emitted from that point on are the
failing checker's own: nothing is emitted for the remaining checkers of
the same category (`rest`) nor for any later category (`cats`).  The
loop state `(now, st, s, w)` is arbitrary, so the fatal checker may sit
after any prefix of the run. -/
theorem runChecks_fatal_aborts (cat : Category) (ch : Checker) (rest : List Checker)
    (cats : List Category) (f : CheckFn) (now : Nat) (st : HealthCheckState) (s w : Bool)
    (hen : cat.enabled = true) (hchk : cat.checkers = ch :: rest)
    (hcheck : ch.check = some f) (hfatal : ch.fatal = true)
    (hfail : (runCheck cat ch f now st).passed = false) :
    runCategories (cat :: cats) now st s w =
      ⟨if !ch.warning then false else s, if ch.warning then true else w,
       (runCheck cat ch f now st).emitted,
       (runCheck cat ch f now st).now, (runCheck cat ch f now st).state⟩ := by
  conv_lhs => rw [runCategories]
  rw [hchk]
  have hcheckers : runCheckers cat (ch :: rest) now st s w =
      ⟨true, if !ch.warning then false else s, if ch.warning then true else w,
       (runCheck cat ch f now st).emitted,
       (runCheck cat ch f now st).now, (runCheck cat ch f now st).state⟩ := by
    rw [runCheckers, hcheck]
    simp only [hfail, hfatal, Bool.false_eq_true, if_false, if_true]
  rw [hcheckers]
  simp [hen]

/-- Witness for C3, the spec's own example: one enabled category
`"test"` with two checkers, the first always failing with `Fatal=true`:
exactly one `CheckResult` is emitted (with a non-nil error), the second
checker contributes nothing, and `success = false`. -/
theorem runChecks_fatal_aborts_witness :
    (c3cat.enabled = true ∧ c3cat.checkers = [c3fatal, c3ok] ∧ c3fatal.check = some c3f ∧
     c3fatal.fatal = true ∧ (runCheck c3cat c3fatal c3f 0 ⟨[]⟩).passed = false) ∧
    runCategories [c3cat] 0 ⟨[]⟩ true false =
      ⟨false, false,
       [{ category := "test", description := "Checker 123",
          hintURL := "http://test.com/check123", retry := false, warning := false,
          err := some (.categoryError "test" (.simple "ERROR")) }], 0, ⟨[]⟩⟩ := by
  have hfail : (runCheck c3cat c3fatal c3f 0 ⟨[]⟩).passed = false := by
    simp [runCheck, c3f, c3fatal, c3cat, asSkipError, mkCheckResult, asVerboseSuccess]
  refine ⟨⟨rfl, rfl, rfl, rfl, hfail⟩, ?_⟩
  rw [runChecks_fatal_aborts c3cat c3fatal [c3ok] [] c3f 0 ⟨[]⟩ true false rfl rfl rfl rfl hfail]
  simp [runCheck, c3f, c3fatal, c3cat, asSkipError, mkCheckResult, asVerboseSuccess]

/-! ## Claim C4 -/

/-- C4: when the probe returns a `Skip` outcome, `runCheck` emits zero
`CheckResult`s and reports the checker as passed, and the checker loop
simply moves on to the remaining checkers with `success` and `warning`
untouched.  The checker is arbitrary, so this holds in particular for a
`fatal` checker (a fatal abort only happens on failure, and a skipped
checker counts as passed). -/
theorem skip_outcome_spec (cat : Category) (ch : Checker) (f : CheckFn)
    (rest : List Checker) (now : Nat) (st : HealthCheckState) (s w : Bool)
    (hchk : ch.check = some f)
    (hskip : (asSkipError (f now st).1).isSome = true) :
    runCheck cat ch f now st = ⟨true, [], now, (f now st).2⟩ ∧
    runCheckers cat (ch :: rest) now st s w = runCheckers cat rest now (f now st).2 s w := by
  refine ⟨runCheck_skip_eq cat ch f now st hskip, ?_⟩
  conv_lhs => rw [runCheckers]
  rw [hchk]
  simp only [runCheck_skip_eq cat ch f now st hskip, if_true, List.nil_append]

/-- Witness for C4, mirroring `TestHealthCheckerSkip`: a fatal checker
whose probe skips emits nothing, counts as passed, and the run
continues with the next checker. -/
theorem skip_outcome_witness :
    (c4skip.check = some c4f ∧ (asSkipError (c4f 0 ⟨[]⟩).1).isSome = true) ∧
    (runCheck c4cat c4skip c4f 0 ⟨[]⟩ = ⟨true, [], 0, ⟨[]⟩⟩ ∧
     runCheckers c4cat [c4skip, c4ok] 0 ⟨[]⟩ true false =
       runCheckers c4cat [c4ok] 0 ⟨[]⟩ true false) :=
  ⟨⟨rfl, rfl⟩, skip_outcome_spec c4cat c4skip c4f [c4ok] 0 ⟨[]⟩ true false rfl rfl⟩

/-! ## Claim C9 -/

/-- C9: a probe returning `VerboseSuccess{message}` yields a single
emitted `CheckResult` whose description is the checker's original
description followed by a newline and the message, with a nil error
(and the checker passes). -/
theorem verboseSuccess_spec (cat : Category) (ch : Checker) (f : CheckFn)
    (now : Nat) (st : HealthCheckState) (msg : String)
    (hv : (f now st).1 = some (.verboseSuccess msg)) :
    runCheck cat ch f now st =
      ⟨true,
       [{ category := cat.id
          description := ch.description ++ "\n" ++ msg
          hintURL := cat.hintBaseURL ++ ch.hintAnchor
          retry := false
          warning := ch.warning
          err := none }],
       now, (f now st).2⟩ := by
  have hsk : (asSkipError (f now st).1).isSome = false := by rw [hv]; rfl
  have hmk : mkCheckResult cat ch (f now st).1 =
      { category := cat.id
        description := ch.description ++ "\n" ++ msg
        hintURL := cat.hintBaseURL ++ ch.hintAnchor
        warning := ch.warning } := by
    rw [hv]
    rfl
  rw [runCheck_terminal_eq cat ch f now st hsk (by rw [hmk]; simp), hmk]
  rfl

/-- Witness for C9, the spec's example: `VerboseSuccess{"Hello"}` gives
one result with description `"Checker 123\nHello"` and `err = nil`. -/
theorem verboseSuccess_witness :
    ((c9f 0 ⟨[]⟩).1 = some (.verboseSuccess "Hello")) ∧
    runCheck c9cat c9ch c9f 0 ⟨[]⟩ =
      ⟨true,
       [{ category := "test", description := "Checker 123\nHello",
          hintURL := "http://test.com/check123", retry := false, warning := false,
          err := none }],
       0, ⟨[]⟩⟩ :=
  ⟨rfl, verboseSuccess_spec c9cat c9ch c9f 0 ⟨[]⟩ "Hello" rfl⟩

/-! ## Claim C10 -/

/-- C10: `NewHealthChecker` dereferences its config pointer
unconditionally.  For every non-nil config (any categories list,
including nil) it returns a non-nil `HealthChecker` whose shared state
map is freshly initialized and empty; for a nil config the call is
undefined (a nil-pointer dereference, modelled as the outer `none`)
rather than the nil return (`some none`) that `TestNewHealthChecker`'s
`assert.Nil` expects. -/
theorem newHealthChecker_spec (categories : List Category) :
    (∀ cfg, NewHealthChecker categories (some cfg) =
      some (some { categories := categories, config := cfg, state := { data := [] } })) ∧
    NewHealthChecker categories none = none :=
  ⟨fun _ => rfl, rfl⟩

/-! ## Claim C5 -/

theorem runCheck_head (cat : Category) (c : Checker) (f : CheckFn)
    (now : Nat) (st : HealthCheckState)
    (hsk : (asSkipError (f now st).1).isSome = false) :
    ∀ hd tl, (runCheck cat c f now st).emitted = hd :: tl →
      hd.retry = ((mkCheckResult cat c (f now st).1).err.isSome
                    && decide (now < c.retryDeadline)) := by
  intro hd tl he
  by_cases hcond : (mkCheckResult cat c (f now st).1).err.isSome = true ∧ now < c.retryDeadline
  · rw [runCheck_retry_eq cat c f now st hsk hcond.1 hcond.2] at he
    have hhd := (List.cons.injEq _ _ _ _).mp he.symm |>.1
    rw [hhd]
    simp [hcond.1, hcond.2]
  · rw [runCheck_terminal_eq cat c f now st hsk hcond] at he
    have hhd := (List.cons.injEq _ _ _ _).mp he.symm |>.1
    rw [hhd, mkCheckResult_retry]
    rcases Decidable.not_and_iff_or_not.mp hcond with h | h
    · simp [Bool.eq_false_iff.mpr h]
    · simp [h]

/-- C5: for a checker whose probe never signals skip, the emitted
stream is zero or more `retry=true` results followed by exactly one
`retry=false` terminal result whose error decides the verdict.  A
result is marked `retry=true` exactly when its (wrapped) error is
non-nil and the attempt's clock is before `retryDeadline` — stated for
the first attempt by the head conjunct, and a zero (unset) deadline
means no retry results at all.  On a `retry=true` result the visible
error is the generic "waiting for check to complete" sentinel unless
`surfaceErrorOnRetry` is set, in which case the real
`CategoryError`-wrapped cause stays visible. -/
theorem runCheck_retry_contract (cat : Category) (c : Checker) (f : CheckFn)
    (now : Nat) (st : HealthCheckState)
    (hnoskip : ∀ t s', asSkipError (f t s').1 = none) :
    ∃ pre last,
      (runCheck cat c f now st).emitted = pre ++ [last] ∧
      (∀ r ∈ pre,
        r.retry = true ∧ r.err.isSome = true ∧
        (c.surfaceErrorOnRetry = false → r.err = some (.simple "waiting for check to complete")) ∧
        (c.surfaceErrorOnRetry = true → ∃ e, r.err = some (.categoryError cat.id e))) ∧
      last.retry = false ∧
      (runCheck cat c f now st).passed = (last.err == none) ∧
      (c.retryDeadline = 0 → pre = []) ∧
      (∀ hd tl, (runCheck cat c f now st).emitted = hd :: tl →
        hd.retry = ((mkCheckResult cat c (f now st).1).err.isSome
                      && decide (now < c.retryDeadline))) := by
  obtain ⟨pre, rest, he, hpre, hpne, hrest⟩ := runCheck_stream cat c f now st
  rcases hrest with ⟨_, _, t, st₂, hsk⟩ | ⟨last, h1, h2, h3, h4⟩
  · rw [hnoskip t st₂] at hsk
    simp at hsk
  · subst h1
    refine ⟨pre, last, he, ?_, h2, h4, ?_, ?_⟩
    · intro r hr
      obtain ⟨ha, hb, _, hc, hd⟩ := hpre r hr
      exact ⟨ha, hb, hc, hd⟩
    · intro hdl
      by_contra hne
      have := hpne hne
      omega
    · exact runCheck_head cat c f now st (by rw [hnoskip now st]; rfl)

/-- Witness for C5: a checker with retry deadline 7 whose probe fails
before tick 5 and then succeeds; its probe never skips, so the contract
applies at time 0. -/
theorem runCheck_retry_contract_witness :
    (∀ t s', asSkipError (c5f t s').1 = none) ∧
    (∃ pre last,
      (runCheck c5cat c5ch c5f 0 ⟨[]⟩).emitted = pre ++ [last] ∧
      (∀ r ∈ pre,
        r.retry = true ∧ r.err.isSome = true ∧
        (c5ch.surfaceErrorOnRetry = false →
          r.err = some (.simple "waiting for check to complete")) ∧
        (c5ch.surfaceErrorOnRetry = true → ∃ e, r.err = some (.categoryError c5cat.id e))) ∧
      last.retry = false ∧
      (runCheck c5cat c5ch c5f 0 ⟨[]⟩).passed = (last.err == none) ∧
      (c5ch.retryDeadline = 0 → pre = []) ∧
      (∀ hd tl, (runCheck c5cat c5ch c5f 0 ⟨[]⟩).emitted = hd :: tl →
        hd.retry = ((mkCheckResult c5cat c5ch (c5f 0 ⟨[]⟩).1).err.isSome
                      && decide (0 < c5ch.retryDeadline)))) := by
  have hnoskip : ∀ t s', asSkipError (c5f t s').1 = none := by
    intro t s'
    by_cases h : t < 5 <;> simp [c5f, h, asSkipError]
  exact ⟨hnoskip, runCheck_retry_contract c5cat c5ch c5f 0 ⟨[]⟩ hnoskip⟩

/-! ## Claim C6 -/

/-- C6 fails on the code: `Replay` iterates **all** stored results and
counts every non-nil error, without consulting `Retry` — but a
`retry=true` result always carries a non-nil error (the "waiting"
sentinel or the surfaced cause).  For the engine run below (a checker
that fails once, retries, then passes) the engine returns
`(success, warning) = (true, false)`, and the spec-side terminal-only
aggregation agrees; yet a reporter that observed the emitted stream
replays `(false, false)`.  This contradicts both the claim and the
code's own intent (`ToJSON`'s comment: "ignore checks that are going to
be retried, we want only final results"). -/
theorem replay_diverges_from_engine :
    (c6hc.RunChecks 0).success = true ∧ (c6hc.RunChecks 0).warning = false ∧
    specAggregate (c6hc.RunChecks 0).emitted
      = ((c6hc.RunChecks 0).success, (c6hc.RunChecks 0).warning) ∧
    ((c6hc.RunChecks 0).emitted.foldl SimpleReporter.Observer NewSimpleReporter).Replay
      = (false, false) := by
  have he : c6hc.RunChecks 0 =
      ⟨true, false,
       [{ category := "test", description := "Checker 123",
          hintURL := "http://test.com/check123", retry := true, warning := false,
          err := some (.simple "waiting for check to complete") },
        { category := "test", description := "Checker 123",
          hintURL := "http://test.com/check123", retry := false, warning := false,
          err := none }], DefaultRetryWindow, ⟨[]⟩⟩ := by
    simp [HealthChecker.RunChecks, runCategories, runCheckers, runCheck, c6hc, c6cat, c6ch,
      c6f, asSkipError, mkCheckResult, asVerboseSuccess, DefaultRetryWindow]
  rw [he]
  refine ⟨rfl, rfl, ?_, ?_⟩ <;> decide

/-! ## Claim C7 -/

theorem appendCheck_jsonChecks (cats : List CheckCategory) (chk : Check) (h : cats ≠ []) :
    jsonChecks (appendCheck cats chk) = jsonChecks cats ++ [chk] := by
  induction cats with
  | nil => exact absurd rfl h
  | cons c rest ih =>
    cases rest with
    | nil => simp [appendCheck, jsonChecks]
    | cons c2 rest2 =>
      have ih2 := ih (by simp)
      simp only [appendCheck, jsonChecks, List.map_cons, List.flatten_cons] at ih2 ⊢
      rw [ih2]
      simp

theorem collect_jsonChecks (acc : List CheckCategory) (r : CheckResult) :
    jsonChecks (collectJSONOutput acc r)
      = jsonChecks acc ++ (if r.retry then [] else [currentCheckOf r]) := by
  have hstep : ∀ (acc' : List CheckCategory), acc' ≠ [] → jsonChecks acc' = jsonChecks acc →
      jsonChecks (if !r.retry then appendCheck acc' (currentCheckOf r) else acc')
        = jsonChecks acc ++ (if r.retry then [] else [currentCheckOf r]) := by
    intro acc' hne' heq
    cases hr : r.retry with
    | true => simpa [hr] using heq
    | false =>
      simp only [hr, Bool.not_false, if_true, if_false]
      rw [appendCheck_jsonChecks _ _ hne', heq]
      simp
  unfold collectJSONOutput
  cases hl : acc.getLast? with
  | none =>
    have hacc : acc = [] := by
      cases acc with
      | nil => rfl
      | cons a as => simp [List.getLast?_eq_none_iff] at hl
    simp only [hl]
    exact hstep _ (by simp) (by simp [jsonChecks, hacc])
  | some c =>
    have hne : acc ≠ [] := by
      intro hacc
      rw [hacc] at hl
      cases hl
    have hnew : jsonChecks (acc ++ [{ name := r.category, checks := [] }]) = jsonChecks acc := by
      simp [jsonChecks]
    simp only [hl]
    refine hstep _ ?_ ?_ <;> by_cases hname : c.name = r.category <;>
      simp [hname, hnew, hne, jsonChecks]

theorem foldl_collect_jsonChecks (rs : List CheckResult) :
    ∀ acc, jsonChecks (rs.foldl collectJSONOutput acc)
      = jsonChecks acc ++ (rs.filter fun r => !r.retry).map currentCheckOf := by
  induction rs with
  | nil => intro acc; simp
  | cons r rest ih =>
    intro acc
    rw [List.foldl_cons, ih, collect_jsonChecks]
    cases hr : r.retry <;> simp [hr]

/-- C7 (amended): `ToJSON` skips records with `retry=true` — the checks
of the final output are exactly the terminal records, in order — and
classifies each terminal record into exactly one of success, warning,
error, using: **error if `err != nil`; warning if `err == nil` and
`warning == true`; success otherwise** (the code puts the `err != nil`
test last, so it overrides the warning flag — unlike the claim's rule,
which is refuted by `toJSON_classification_cex`). -/
theorem toJSON_terminal_classification (cr : SimpleReporter) :
    jsonChecks (cr.ToJSON).categories
      = (cr.results.filter fun r => !r.retry).map currentCheckOf ∧
    ∀ r : CheckResult,
      ((currentCheckOf r).result = .error ↔ r.err.isSome = true) ∧
      ((currentCheckOf r).result = .warning ↔ r.err = none ∧ r.warning = true) ∧
      ((currentCheckOf r).result = .success ↔ r.err = none ∧ r.warning = false) := by
  constructor
  · show jsonChecks (cr.results.foldl collectJSONOutput []) = _
    rw [foldl_collect_jsonChecks]
    simp [jsonChecks]
  · intro r
    have hres : (currentCheckOf r).result = checkStatus r := by
      unfold currentCheckOf
      cases r.err <;> rfl
    rw [hres]
    cases he : r.err <;> cases hw : r.warning <;>
      simp [checkStatus, he, hw]

/-- Counterexample to C7 as stated: the claim's rule classifies a
terminal record with `err = nil` as success and one with `err != nil`
and `warning = true` as warning; `ToJSON` instead renders them as
warning and error respectively. -/
theorem toJSON_classification_cex :
    c7r1.err = none ∧ (currentCheckOf c7r1).result = .warning ∧
    c7r2.err.isSome = true ∧ c7r2.warning = true ∧ (currentCheckOf c7r2).result = .error ∧
    (SimpleReporter.ToJSON { results := [c7r1, c7r2] }).categories
      = [{ name := "c",
           checks := [{ description := "d1", result := .warning },
                      { description := "d2", hint := "h", error := "E", result := .error }] }] ∧
    CheckResultStr.warning ≠ CheckResultStr.success ∧
    CheckResultStr.error ≠ CheckResultStr.warning := by
  decide

/-! ## Claim C8 -/

theorem runCheck_plain_pass (cat : Category) (ch : Checker) (f : CheckFn)
    (now : Nat) (st : HealthCheckState) (hf : (f now st).1 = none) :
    runCheck cat ch f now st = ⟨true, [mkCheckResult cat ch none], now, (f now st).2⟩ := by
  rw [runCheck_terminal_eq cat ch f now st (by rw [hf]; rfl)
    (by rw [hf]; intro hcon; cases hcon.1), hf]
  rfl

/-- C8 (amended): state written by an earlier probe is passed to —
visible to — every later probe, both within one category and across
subsequent categories of the same run; and the shared state is **not**
confined to one run: the engine keeps the final state of a run
(`afterRun`), so a later `RunChecks` on the same engine starts from the
mutations of the earlier run (`sharedState_cross_run_cex` refutes the
claim's single-run confinement).  The first two parts say that after a
plainly passing first probe, the rest of the run is the run of the
remaining checkers from the state that probe returned. -/
theorem sharedState_visibility :
    (∀ (cat : Category) (ch1 ch2 : Checker) (f1 f2 : CheckFn) (now : Nat)
       (st : HealthCheckState) (s w : Bool),
       ch1.check = some f1 → ch2.check = some f2 → (f1 now st).1 = none →
       (runCheckers cat [ch1, ch2] now st s w).state
           = (runCheck cat ch2 f2 now (f1 now st).2).state ∧
       (runCheckers cat [ch1, ch2] now st s w).emitted
           = mkCheckResult cat ch1 none :: (runCheck cat ch2 f2 now (f1 now st).2).emitted) ∧
    (∀ (cat1 cat2 : Category) (ch1 ch2 : Checker) (f1 f2 : CheckFn) (now : Nat)
       (st : HealthCheckState) (s w : Bool),
       cat1.enabled = true → cat2.enabled = true →
       cat1.checkers = [ch1] → cat2.checkers = [ch2] →
       ch1.check = some f1 → ch2.check = some f2 → (f1 now st).1 = none →
       (runCategories [cat1, cat2] now st s w).state
           = (runCheck cat2 ch2 f2 now (f1 now st).2).state ∧
       (runCategories [cat1, cat2] now st s w).emitted
           = mkCheckResult cat1 ch1 none :: (runCheck cat2 ch2 f2 now (f1 now st).2).emitted) ∧
    (∀ (hc : HealthChecker) (now : Nat), (hc.afterRun now).state = (hc.RunChecks now).state) := by
  have hone : ∀ (cat : Category) (ch2 : Checker) (f2 : CheckFn) (now : Nat)
      (st1 : HealthCheckState) (s w : Bool), ch2.check = some f2 →
      (runCheckers cat [ch2] now st1 s w).state = (runCheck cat ch2 f2 now st1).state ∧
      (runCheckers cat [ch2] now st1 s w).emitted = (runCheck cat ch2 f2 now st1).emitted := by
    intro cat ch2 f2 now st1 s w hchk2
    rw [runCheckers, hchk2]
    cases hp : (runCheck cat ch2 f2 now st1).passed <;>
      cases hfat : ch2.fatal <;>
        simp [hp, hfat, runCheckers]
  refine ⟨?_, ?_, fun hc now => rfl⟩
  · intro cat ch1 ch2 f1 f2 now st s w hchk1 hchk2 hf1
    have h1 := runCheck_plain_pass cat ch1 f1 now st hf1
    have h2 := hone cat ch2 f2 now (f1 now st).2 s w hchk2
    refine ⟨?_, ?_⟩
    · conv_lhs => rw [runCheckers]
      simp [hchk1, h1, h2.1]
    · conv_lhs => rw [runCheckers]
      simp [hchk1, h1, h2.2]
  · intro cat1 cat2 ch1 ch2 f1 f2 now st s w hen1 hen2 hcks1 hcks2 hchk1 hchk2 hf1
    have h1 := runCheck_plain_pass cat1 ch1 f1 now st hf1
    have h2 := hone cat2 ch2 f2 now (f1 now st).2 s w hchk2
    have hc1 : runCheckers cat1 [ch1] now st s w =
        ⟨false, s, w, [mkCheckResult cat1 ch1 none], now, (f1 now st).2⟩ := by
      rw [runCheckers]
      simp [hchk1, h1, runCheckers]
    have hcat2 : (runCategories [cat2] now (f1 now st).2 s w).state
          = (runCheckers cat2 [ch2] now (f1 now st).2 s w).state ∧
        (runCategories [cat2] now (f1 now st).2 s w).emitted
          = (runCheckers cat2 [ch2] now (f1 now st).2 s w).emitted := by
      rw [runCategories, hcks2]
      cases hab : (runCheckers cat2 [ch2] now (f1 now st).2 s w).aborted <;>
        simp [hen2, hab, runCategories]
    refine ⟨?_, ?_⟩
    · conv_lhs => rw [runCategories]
      simp [hcks1, hc1, hen1, hcat2.1, h2.1]
    · conv_lhs => rw [runCategories]
      simp [hcks1, hc1, hen1, hcat2.2, h2.2]

/-- Witness for C8 (amended), mirroring `TestPassingDataFromCheckToCheck`:
a writer probe stores `"one" -> "two"` and the following reader probe
receives exactly the state the writer returned. -/
theorem sharedState_visibility_witness :
    (c8w.check = some c8wf ∧ c8r.check = some c8rf ∧ (c8wf 0 ⟨[]⟩).1 = none) ∧
    ((runCheckers c8vcat [c8w, c8r] 0 ⟨[]⟩ true false).state
        = (runCheck c8vcat c8r c8rf 0 (c8wf 0 ⟨[]⟩).2).state ∧
     (runCheckers c8vcat [c8w, c8r] 0 ⟨[]⟩ true false).emitted
        = mkCheckResult c8vcat c8w none
            :: (runCheck c8vcat c8r c8rf 0 (c8wf 0 ⟨[]⟩).2).emitted) :=
  ⟨⟨rfl, rfl, rfl⟩,
   sharedState_visibility.1 c8vcat c8w c8r c8wf c8rf 0 ⟨[]⟩ true false rfl rfl rfl⟩

/-- Counterexample to C8 as stated: the claim says a later `RunChecks`
on the same engine does not see mutations made during an earlier run,
i.e. the second run of this engine should behave exactly like the first
(`success = false`, the key is absent).  But `NewHealthChecker` creates
the shared map once per engine and `RunChecks` never resets it, so the
second run finds the `"one" -> "two"` entry written by the first and
succeeds. -/
theorem sharedState_cross_run_cex :
    (c8xhc.RunChecks 0).success = false ∧
    ((c8xhc.afterRun 0).RunChecks 0).success = true := by
  constructor <;>
    simp [HealthChecker.RunChecks, HealthChecker.afterRun, runCategories, runCheckers,
      runCheck, c8xhc, c8xcat, c8xch, c8xf, asSkipError, mkCheckResult, asVerboseSuccess,
      List.lookup]

end Healthcheck
